import Mathlib

/-!
Verification development for the `.zmes` extraction pipeline of the
`dls-analysis` repository (file `src/from/fromZmes.ts`).

The pipeline converts an already-parsed hierarchical parameter tree of a
Malvern Zetasizer measurement file into, per record, a variable set
(numeric arrays keyed by single-letter symbols), a title, a flat metadata
record and a settings record.

Shallow embedding conventions:
- A JavaScript parameter-node value is either a string, a number, or a
  `Float64Array`; no arithmetic is ever performed on the numbers, only
  type tests ("typeof v === 'number'", "v instanceof Float64Array",
  "typeof v === 'string'", "v !== undefined"), so numbers are embedded
  as `Int` and `Float64Array` contents as `List Int`.
- An optional JavaScript value (possibly `undefined`) is an `Option`.
- A JavaScript `Map` with string keys, and likewise a plain object used
  as a record, is an insertion-ordered association list
  `List (String × α)`; `Map.set` / property assignment replaces the
  value of an existing key in place and otherwise appends (`recSet`),
  and lookup returns the value of the first (unique) matching key
  (`recGet`).
- The external `Analysis` container (from `common-spectrum`, outside
  this repository) is modelled by its documented interface only:
  `pushSpectrum` appends one spectrum entry, and `analysis.spectra.at(-1)`
  is the just-appended entry, so attaching `settings` to it is modelled
  by constructing the entry with its settings directly.
- `parameters.children ?? []` is modelled by giving every node a plain
  (possibly empty) child list: a node with `undefined` children and a
  node with an empty child array behave identically in every use site.
-/

set_option autoImplicit false

/-- Value held by a parameter node: a string scalar, a numeric scalar, or a
numeric floating-point array (`Float64Array` in the source). -/
inductive PValue : Type where
  | str : String → PValue
  | num : Int → PValue
  | floatArray : List Int → PValue
deriving DecidableEq

/-- A node of the parameter tree (`ZmesParameter` in the source): a name, an
optional value and an ordered list of children. -/
inductive ZmesParameter : Type where
  | node : String → Option PValue → List ZmesParameter → ZmesParameter

/-- The node's name. -/
def ZmesParameter.name : ZmesParameter → String
  | .node n _ _ => n

/-- The node's optional value. -/
def ZmesParameter.value : ZmesParameter → Option PValue
  | .node _ v _ => v

/-- The node's ordered list of children. -/
def ZmesParameter.children : ZmesParameter → List ZmesParameter
  | .node _ _ cs => cs

/-- `findParameter(children, name)`: first node of a flat list of direct
children whose name equals `name`. -/
def findParameter (children : List ZmesParameter) (nm : String) :
    Option ZmesParameter :=
  children.find? (fun child => decide (child.name = nm))

mutual

/-- `findParameterDeep(parameter, name)`: recursive search; the node itself is
checked first, then its children in stored order, each searched recursively,
returning the first match. -/
def findParameterDeep : ZmesParameter → String → Option ZmesParameter
  | .node n v cs, nm =>
    if n = nm then some (.node n v cs)
    else findParameterDeepInChildren cs nm

/-- The `for (const child of parameter.children)` loop of
`findParameterDeep`: try each child in order, returning the first hit. -/
def findParameterDeepInChildren : List ZmesParameter → String → Option ZmesParameter
  | [], _ => none
  | c :: rest, nm =>
    match findParameterDeep c nm with
    | some found => some found
    | none => findParameterDeepInChildren rest nm

end

mutual

/-- Document-order (depth-first pre-order) listing of all nodes of a tree:
the root first, then the pre-order listings of the children in stored
order. Used to state what "first match in document order" means. -/
def preorder : ZmesParameter → List ZmesParameter
  | .node n v cs => .node n v cs :: preorderList cs

/-- Pre-order listing of a forest, in stored order. -/
def preorderList : List ZmesParameter → List ZmesParameter
  | [] => []
  | c :: rest => preorder c ++ preorderList rest

end

/-- Insertion-ordered string-keyed record/map assignment: replace the value
at the first occurrence of the key, else append the pair (JavaScript
`Map.set` / object property assignment). -/
def recSet {α : Type} : List (String × α) → String → α → List (String × α)
  | [], k, v => [(k, v)]
  | q :: rest, k, v =>
    if q.1 = k then (k, v) :: rest else q :: recSet rest k v

/-- Record/map lookup: value of the first pair whose key matches. -/
def recGet {α : Type} (m : List (String × α)) (k : String) : Option α :=
  (m.find? (fun q => decide (q.1 = k))).map Prod.snd

/-- One iteration of a "for each entry: resolve, and on success assign under
the entry's key" loop over a record/map. -/
def setStep {β α : Type} (key : β → String) (res : β → Option α)
    (m : List (String × α)) (b : β) : List (String × α) :=
  match res b with
  | some v => recSet m (key b) v
  | none => m

/-- A "for each entry: resolve, and on success assign under the entry's key"
loop over a record/map, folding `setStep` over the entry list. -/
def setFold {β α : Type} (key : β → String) (res : β → Option α)
    (l : List β) (m : List (String × α)) : List (String × α) :=
  l.foldl (setStep key res) m

/-- One entry of the fixed variable descriptor table. -/
structure VariableDescriptor where
  parameterName : String
  symbol : String
  label : String
  units : String
  isDependent : Bool
deriving DecidableEq

/-- The fixed table `VARIABLE_DESCRIPTORS` of the source, in source order. -/
def VARIABLE_DESCRIPTORS : List VariableDescriptor :=
  [{ parameterName := "Sizes", symbol := "x", label := "Particle diameter",
     units := "nm", isDependent := false },
   { parameterName := "Particle Size Intensity Distribution", symbol := "y",
     label := "Intensity", units := "%", isDependent := true },
   { parameterName := "Particle Size Volume Distribution (%)", symbol := "v",
     label := "Volume", units := "%", isDependent := true },
   { parameterName := "Particle Size Number Distribution", symbol := "n",
     label := "Number", units := "%", isDependent := true },
   { parameterName := "Molecular Weights", symbol := "w",
     label := "Molecular weight", units := "Da", isDependent := true },
   { parameterName := "Diffusion Coefficients", symbol := "d",
     label := "Diffusion coefficient", units := "µm²/s", isDependent := true },
   { parameterName := "Relaxation Times", symbol := "r",
     label := "Relaxation time", units := "µs", isDependent := true },
   { parameterName := "Form Factor", symbol := "f", label := "Form factor",
     units := "", isDependent := true }]

/-- One produced measurement variable (`MeasurementVariable` of the source). -/
structure MeasurementVariable where
  symbol : String
  label : String
  units : String
  data : List Int
  isDependent : Bool
deriving DecidableEq

/-- The produced variable set (`MeasurementXYVariables` of the source): the
required `x` and `y` variables plus the six optional single-letter
variables of the descriptor table. -/
structure MeasurementXYVariables where
  x : MeasurementVariable
  y : MeasurementVariable
  v : Option MeasurementVariable
  n : Option MeasurementVariable
  w : Option MeasurementVariable
  d : Option MeasurementVariable
  r : Option MeasurementVariable
  f : Option MeasurementVariable
deriving DecidableEq

/-- Loop body of `buildVariables`: deep-search the descriptor's parameter
name and accept the node only when its value is a numeric floating-point
array (`value instanceof Float64Array`), in which case the descriptor's
variable is produced. -/
def resolveVariable (parameters : ZmesParameter)
    (descriptor : VariableDescriptor) : Option MeasurementVariable :=
  match findParameterDeep parameters descriptor.parameterName with
  | some parameter =>
    match parameter.value with
    | some (.floatArray data) =>
      some { symbol := descriptor.symbol, label := descriptor.label,
             units := descriptor.units, data := data,
             isDependent := descriptor.isDependent }
    | _ => none
  | none => none

/-- The `found` map of `buildVariables` after the descriptor loop: for each
descriptor in order, on acceptance `found.set(descriptor.symbol, ...)`. -/
def foundVariables (descriptors : List VariableDescriptor)
    (parameters : ZmesParameter) : List (String × MeasurementVariable) :=
  setFold VariableDescriptor.symbol (resolveVariable parameters) descriptors []

/-- `buildVariables` generalized over the descriptor table it iterates: build
the `found` map, require `x` and `y`, and fill each remaining single-letter
slot from the map (the final `for (const [key, variable] of found)` loop,
whose keys can only be descriptor symbols). -/
def buildVariablesWith (descriptors : List VariableDescriptor)
    (parameters : ZmesParameter) : Option MeasurementXYVariables :=
  let found := foundVariables descriptors parameters
  match recGet found "x", recGet found "y" with
  | some x, some y =>
    some { x := x, y := y, v := recGet found "v", n := recGet found "n",
           w := recGet found "w", d := recGet found "d",
           r := recGet found "r", f := recGet found "f" }
  | some _, none => none
  | none, _ => none

/-- `buildVariables(parameters)` of the source: the loop runs over the fixed
`VARIABLE_DESCRIPTORS` table. -/
def buildVariables (parameters : ZmesParameter) :
    Option MeasurementXYVariables :=
  buildVariablesWith VARIABLE_DESCRIPTORS parameters

/-- The string value of an optionally found node: `some s` exactly when the
node was found and its value is a string (the source's
"typeof parameter?.value === 'string'" test). -/
def stringValue : Option ZmesParameter → Option String
  | some q =>
    match q.value with
    | some (.str s) => some s
    | _ => none
  | none => none

/-- The numeric-scalar value of an optionally found node: `some x` exactly
when the node was found and its value is a number (the source's
"typeof parameter?.value === 'number'" test). -/
def numericValue : Option ZmesParameter → Option Int
  | some q =>
    match q.value with
    | some (.num x) => some x
    | _ => none
  | none => none

/-- The numeric-array value of an optionally found node: `some a` exactly
when the node was found and its value is a numeric floating-point array
(the source's "parameter?.value instanceof Float64Array" test). -/
def floatArrayValue : Option ZmesParameter → Option (List Int)
  | some q =>
    match q.value with
    | some (.floatArray a) => some a
    | _ => none
  | none => none

/-- `extractTitle(parameters)`: direct-child lookup of "Sample Settings",
empty string when absent, else the deep "Sample Name" value when it is a
string, else the empty string. -/
def extractTitle (parameters : ZmesParameter) : String :=
  match findParameter parameters.children "Sample Settings" with
  | none => ""
  | some sampleSettings =>
    match findParameterDeep sampleSettings "Sample Name" with
    | some sampleName =>
      match sampleName.value with
      | some (.str s) => s
      | _ => ""
    | none => ""

/-- One entry of a fixed (parameterName, metaKey) metadata field table. -/
structure MetaField where
  parameterName : String
  metaKey : String
deriving DecidableEq

/-- The `topLevelFields` table of `extractMeta`, in source order. -/
def topLevelFields : List MetaField :=
  [{ parameterName := "Operator Name", metaKey := "operatorName" },
   { parameterName := "Measurement Start Date And Time",
     metaKey := "measurementStartDateTime" },
   { parameterName := "Measurement Completed Date And Time",
     metaKey := "measurementCompletedDateTime" },
   { parameterName := "Repeat", metaKey := "repeat" },
   { parameterName := "Number Of Repeats", metaKey := "numberOfRepeats" },
   { parameterName := "Pause Between Repeats (s)",
     metaKey := "pauseBetweenRepeats" },
   { parameterName := "Quality Indicator", metaKey := "qualityIndicator" },
   { parameterName := "Result State", metaKey := "resultState" },
   { parameterName := "Measurement Type", metaKey := "measurementType" }]

/-- The `deepFields` table of `extractMeta` (cumulants results), in source
order. -/
def deepFields : List MetaField :=
  [{ parameterName := "Z-Average (nm)", metaKey := "zAverage" },
   { parameterName := "Polydispersity Index (PI)",
     metaKey := "polydispersityIndex" },
   { parameterName := "Derived Mean Count Rate (kcps)",
     metaKey := "derivedMeanCountRate" }]

/-- The source's "if (x?.value !== undefined) record[key] = x.value" step:
assign the optional value under the key when it is defined, else leave the
record unchanged. -/
def setIfDefined (meta : List (String × PValue)) (k : String)
    (ov : Option PValue) : List (String × PValue) :=
  match ov with
  | some v => recSet meta k v
  | none => meta

/-- The material-info block of `extractMeta`: deep-search "Material Settings"
from the record root and, when found, deep-search "Material RI" and
"Material Absorption" within that subtree only, assigning each value that
is defined (RI first, absorption second). -/
def applyMaterialInfo (parameters : ZmesParameter)
    (meta : List (String × PValue)) : List (String × PValue) :=
  match findParameterDeep parameters "Material Settings" with
  | some materialSettings =>
    setIfDefined
      (setIfDefined meta "materialRI"
        ((findParameterDeep materialSettings "Material RI").bind
          ZmesParameter.value))
      "materialAbsorption"
      ((findParameterDeep materialSettings "Material Absorption").bind
        ZmesParameter.value)
  | none => meta

/-- The dispersant-info block of `extractMeta`: deep lookups of
"Dispersant Viscosity (cP)" and "Dispersant RI" from the record root,
assigning each value that is defined (viscosity first, RI second). -/
def applyDispersantInfo (parameters : ZmesParameter)
    (meta : List (String × PValue)) : List (String × PValue) :=
  setIfDefined
    (setIfDefined meta "dispersantViscosity"
      ((findParameterDeep parameters "Dispersant Viscosity (cP)").bind
        ZmesParameter.value))
    "dispersantRI"
    ((findParameterDeep parameters "Dispersant RI").bind ZmesParameter.value)

/-- `extractMeta(parameters)`: the empty record, then the top-level field
loop (direct-child lookups), the deep field loop (cumulants), the
material-info block and the dispersant-info block, in source order. -/
def extractMeta (parameters : ZmesParameter) : List (String × PValue) :=
  applyDispersantInfo parameters
    (applyMaterialInfo parameters
      (setFold MetaField.metaKey
        (fun field =>
          (findParameterDeep parameters field.parameterName).bind
            ZmesParameter.value)
        deepFields
        (setFold MetaField.metaKey
          (fun field =>
            (findParameter parameters.children field.parameterName).bind
              ZmesParameter.value)
          topLevelFields [])))

/-- Nested software identity of the settings record. -/
structure SoftwareInfo where
  name : String
  version : Option String
deriving DecidableEq

/-- Instrument identity of the settings record. -/
structure InstrumentInfo where
  manufacturer : String
  model : String
  serialNumber : Option String
  software : SoftwareInfo
deriving DecidableEq

/-- One entry of the fixed (parameterName, settingsKey) numeric settings
table. -/
structure SettingsField where
  parameterName : String
  settingsKey : String
deriving DecidableEq

/-- The `instrumentSettingsFields` table of `extractSettings`, in source
order. -/
def instrumentSettingsFields : List SettingsField :=
  [{ parameterName := "Detector Angle (°)", settingsKey := "detectorAngle" },
   { parameterName := "Run Duration (s)", settingsKey := "runDuration" },
   { parameterName := "Number Of Runs", settingsKey := "numberOfRuns" },
   { parameterName := "Temperature (°C)", settingsKey := "temperature" },
   { parameterName := "Attenuator", settingsKey := "attenuator" },
   { parameterName := "Attenuation Factor", settingsKey := "attenuationFactor" },
   { parameterName := "Cuvette Position (mm)", settingsKey := "cuvettePosition" },
   { parameterName := "Laser Wavelength (nm)", settingsKey := "laserWavelength" }]

/-- The produced settings record: the nested instrument identity plus the
flat numeric settings assembled by the settings field loop. -/
structure ZmesSettings where
  instrument : InstrumentInfo
  numeric : List (String × Int)
deriving DecidableEq

/-- `extractSettings(parameters)`: hardcoded manufacturer/model/software-name
constants, optional serial number (deep lookup, string values only),
optional software version (direct-child lookup, string values only), and
the numeric settings loop (deep lookups, numeric values only). -/
def extractSettings (parameters : ZmesParameter) : ZmesSettings :=
  let softwareVersion := findParameter parameters.children "Software Version"
  let instrumentSerialNumber :=
    findParameterDeep parameters "Instrument Serial Number"
  { instrument :=
      { manufacturer := "Malvern Panalytical"
        model := "Zetasizer"
        serialNumber :=
          match instrumentSerialNumber with
          | some q =>
            match q.value with
            | some (.str s) => some s
            | _ => none
          | none => none
        software :=
          { name := "ZS XPLORER"
            version :=
              match softwareVersion with
              | some q =>
                match q.value with
                | some (.str s) => some s
                | _ => none
              | none => none } }
    numeric :=
      setFold SettingsField.settingsKey
        (fun field => numericValue (findParameterDeep parameters field.parameterName))
        instrumentSettingsFields [] }

/-- One record of a parsed `.zmes` file: a GUID string and a parameter
tree. -/
structure ZmesRecord where
  guid : String
  parameters : ZmesParameter

/-- A parsed `.zmes` file: its records in file order. -/
structure ZmesFile where
  records : List ZmesRecord

/-- One spectrum entry of the output collection: the variable set together
with the id, title, data type, metadata and settings attached to it by the
orchestrator. -/
structure SpectrumEntry where
  «variables» : MeasurementXYVariables
  id : String
  title : String
  dataType : String
  meta : List (String × PValue)
  settings : ZmesSettings

/-- One iteration of the record loop of `fromZmes`: build the variables and,
unless they are missing (`undefined`), push one spectrum entry carrying the
record's GUID as id, the extracted title, the fixed data type, the
extracted metadata, and the settings attached to the just-pushed entry. -/
def pushRecord (analysis : List SpectrumEntry) (record : ZmesRecord) :
    List SpectrumEntry :=
  match buildVariables record.parameters with
  | none => analysis
  | some «variables» =>
    analysis ++
      [{ «variables» := «variables», id := record.guid,
         title := extractTitle record.parameters,
         dataType := "Size measurement",
         meta := extractMeta record.parameters,
         settings := extractSettings record.parameters }]

/-- `fromZmes`: fold the record loop over the file's records in file order,
starting from the empty collection. -/
def fromZmes (zmesFile : ZmesFile) : List SpectrumEntry :=
  zmesFile.records.foldl pushRecord []

/-- The list of semantic metadata keys that `extractMeta` can ever emit,
one per entry of its field tables and scoped blocks. -/
def knownMetaKeys : List String :=
  ["operatorName", "measurementStartDateTime", "measurementCompletedDateTime",
   "repeat", "numberOfRepeats", "pauseBetweenRepeats", "qualityIndicator",
   "resultState", "measurementType", "zAverage", "polydispersityIndex",
   "derivedMeanCountRate", "materialRI", "materialAbsorption",
   "dispersantViscosity", "dispersantRI"]

/-- The "Sample Settings" subtree of the concrete sample record below. -/
def sampleSettingsNode : ZmesParameter :=
  .node "Sample Settings" none
    [.node "Sample Name" (some (.str "TEST XX230.A")) []]

/-- A concrete record parameter tree with the required numeric arrays, one
optional variable, a sample name, material settings, a serial number and a
numeric instrument setting; used to evaluate the verified functions. -/
def sampleTree : ZmesParameter :=
  .node "Record" none
    [.node "Operator Name" (some (.str "gbf-network")) [],
     .node "Repeat" (some (.num 2)) [],
     .node "Software Version" (some (.str "4.1.0.82")) [],
     sampleSettingsNode,
     .node "Sizes" (some (.floatArray [0, 1, 2])) [],
     .node "Particle Size Intensity Distribution"
       (some (.floatArray [3, 4, 5])) [],
     .node "Particle Size Volume Distribution (%)"
       (some (.floatArray [6, 7])) [],
     .node "Results" none
       [.node "Z-Average (nm)" (some (.num 489)) [],
        .node "Material Settings" none
          [.node "Material RI" (some (.num 17)) [],
           .node "Material Absorption" (some (.num 1)) []],
        .node "Instrument Serial Number" (some (.str "100038577")) [],
        .node "Detector Angle (°)" (some (.num 173)) []]]

/-- The variable set that `buildVariables` produces for `sampleTree`. -/
def sampleVars : MeasurementXYVariables :=
  { x := { symbol := "x", label := "Particle diameter", units := "nm",
           data := [0, 1, 2], isDependent := false },
    y := { symbol := "y", label := "Intensity", units := "%",
           data := [3, 4, 5], isDependent := true },
    v := some { symbol := "v", label := "Volume", units := "%",
                data := [6, 7], isDependent := true },
    n := none, w := none, d := none, r := none, f := none }

/-- A concrete record tree holding a numeric-array "Sizes" node but no
intensity distribution, so its record is skipped. -/
def missingYTree : ZmesParameter :=
  .node "Record" none [.node "Sizes" (some (.floatArray [1, 2])) []]

/-- A concrete record tree whose first document-order "Sizes" node holds a
string while a later sibling "Sizes" node holds a numeric array. -/
def shadowedSizesTree : ZmesParameter :=
  .node "Record" none
    [.node "Sizes" (some (.str "not an array")) [],
     .node "Sizes" (some (.floatArray [1, 2])) [],
     .node "Particle Size Intensity Distribution"
       (some (.floatArray [3, 4])) []]

/-! ### Generic record/map lemmas -/

theorem recGet_nil {α : Type} (k : String) :
    recGet ([] : List (String × α)) k = none := rfl

theorem recGet_recSet_self {α : Type} (m : List (String × α)) (k : String) (v : α) :
    recGet (recSet m k v) k = some v := by
  induction m with
  | nil => simp [recSet, recGet, List.find?]
  | cons q rest ih =>
    by_cases h : q.1 = k
    · simp [recSet, h, recGet, List.find?]
    · simp only [recSet, if_neg h]
      rw [recGet, List.find?_cons_of_neg _ (by simp [h]), ← recGet]
      exact ih

theorem recGet_recSet_ne {α : Type} (m : List (String × α)) (k k' : String) (v : α)
    (h : k' ≠ k) : recGet (recSet m k v) k' = recGet m k' := by
  induction m with
  | nil =>
    simp only [recSet, recGet]
    rw [List.find?_cons_of_neg _ (by simp [Ne.symm h])]
  | cons q rest ih =>
    by_cases hq : q.1 = k
    · simp only [recSet, if_pos hq, recGet]
      rw [List.find?_cons_of_neg _ (by simp [Ne.symm h]),
        List.find?_cons_of_neg _ (by simp [hq, Ne.symm h])]
    · simp only [recSet, if_neg hq, recGet]
      by_cases hq' : q.1 = k'
      · rw [List.find?_cons_of_pos _ (by simp [hq']),
          List.find?_cons_of_pos _ (by simp [hq'])]
      · rw [List.find?_cons_of_neg _ (by simp [hq']),
          List.find?_cons_of_neg _ (by simp [hq']), ← recGet, ← recGet]
        exact ih

theorem recGet_setStep_ne {β α : Type} (key : β → String) (res : β → Option α)
    (m : List (String × α)) (b : β) (k : String) (h : key b ≠ k) :
    recGet (setStep key res m b) k = recGet m k := by
  unfold setStep
  cases res b with
  | none => rfl
  | some v => exact recGet_recSet_ne m (key b) k v (Ne.symm h)

theorem recGet_setFold_notMem {β α : Type} (key : β → String) (res : β → Option α)
    (l : List β) (m : List (String × α)) (k : String)
    (h : ∀ b ∈ l, key b ≠ k) :
    recGet (setFold key res l m) k = recGet m k := by
  induction l generalizing m with
  | nil => rfl
  | cons b rest ih =>
    rw [setFold, List.foldl_cons, ← setFold]
    rw [ih (setStep key res m b) (fun b' hb' => h b' (List.mem_cons_of_mem b hb'))]
    exact recGet_setStep_ne key res m b k (h b (List.mem_cons_self b rest))

theorem recGet_setFold_nodup {β α : Type} (key : β → String) (res : β → Option α)
    (l : List β) (m : List (String × α)) (k : String)
    (hnd : (l.map key).Nodup) :
    recGet (setFold key res l m) k =
      ((l.find? (fun b => decide (key b = k))).bind res).or (recGet m k) := by
  induction l generalizing m with
  | nil => rfl
  | cons b rest ih =>
    rw [setFold, List.foldl_cons, ← setFold]
    have hnd' : (rest.map key).Nodup := (List.nodup_cons.mp hnd).2
    by_cases hb : key b = k
    · have hrest : ∀ b' ∈ rest, key b' ≠ k := by
        intro b' hb' hk
        exact (List.nodup_cons.mp hnd).1 (hb ▸ hk ▸ List.mem_map_of_mem key hb')
      rw [recGet_setFold_notMem key res rest (setStep key res m b) k hrest,
        List.find?_cons_of_pos _ (by simp [hb])]
      unfold setStep
      cases hr : res b with
      | none => simp [Option.or, hr]
      | some v => simp [Option.or, hr, hb, recGet_recSet_self]
    · rw [ih (setStep key res m b) hnd',
        List.find?_cons_of_neg _ (by simp [hb]),
        recGet_setStep_ne key res m b k hb]

theorem recGet_setFold_nil_nodup {β α : Type} (key : β → String) (res : β → Option α)
    (l : List β) (k : String) (hnd : (l.map key).Nodup) :
    recGet (setFold key res l ([] : List (String × α))) k =
      (l.find? (fun b => decide (key b = k))).bind res := by
  rw [recGet_setFold_nodup key res l [] k hnd, recGet_nil]
  cases (l.find? (fun b => decide (key b = k))).bind res with
  | none => rfl
  | some v => rfl

theorem find?_key_of_mem {β : Type} (key : β → String) (l : List β) (b : β)
    (hnd : (l.map key).Nodup) (hm : b ∈ l) :
    l.find? (fun q => decide (key q = key b)) = some b := by
  induction l with
  | nil => cases hm
  | cons c rest ih =>
    by_cases hc : key c = key b
    · rw [List.find?_cons_of_pos _ (by simp [hc])]
      rcases List.mem_cons.mp hm with rfl | hmem
      · rfl
      · exact absurd (hc ▸ List.mem_map_of_mem key hmem)
          (List.nodup_cons.mp hnd).1
    · rw [List.find?_cons_of_neg _ (by simp [hc])]
      rcases List.mem_cons.mp hm with rfl | hmem
      · exact absurd rfl hc
      · exact ih (List.nodup_cons.mp hnd).2 hmem

theorem find?_eq_of_perm {β : Type} (key : β → String) (l l' : List β)
    (hp : l.Perm l') (hnd : (l'.map key).Nodup) (k : String) :
    l.find? (fun b => decide (key b = k)) =
      l'.find? (fun b => decide (key b = k)) := by
  cases h' : l'.find? (fun b => decide (key b = k)) with
  | none =>
    rw [List.find?_eq_none] at h' ⊢
    intro b hb
    exact h' b (hp.mem_iff.mp hb)
  | some b =>
    have hb' : b ∈ l' := List.mem_of_find?_eq_some h'
    have hkb : key b = k := by simpa using List.find?_some h'
    have hexists : (l.find? (fun b => decide (key b = k))).isSome := by
      rw [List.find?_isSome]
      exact ⟨b, hp.mem_iff.mpr hb', by simp [hkb]⟩
    cases h : l.find? (fun b => decide (key b = k)) with
    | none => rw [h] at hexists; cases hexists
    | some c =>
      have hc : c ∈ l' := hp.mem_iff.mp (List.mem_of_find?_eq_some h)
      have hkc : key c = k := by simpa using List.find?_some h
      have : c = b :=
        List.inj_on_of_nodup_map hnd hc hb' (hkc.trans hkb.symm)
      rw [this]

/-! ### Tree search: deep search equals first match of the pre-order
listing -/

mutual

theorem findParameterDeep_eq_preorder_find (p : ZmesParameter) (nm : String) :
    findParameterDeep p nm = (preorder p).find? (fun q => decide (q.name = nm)) := by
  cases p with
  | node n v cs =>
    rw [findParameterDeep, preorder]
    by_cases h : n = nm
    · rw [if_pos h, List.find?_cons_of_pos _ (by simp [ZmesParameter.name, h])]
    · rw [if_neg h, List.find?_cons_of_neg _ (by simp [ZmesParameter.name, h])]
      exact findParameterDeepInChildren_eq_preorder_find cs nm

theorem findParameterDeepInChildren_eq_preorder_find (cs : List ZmesParameter)
    (nm : String) :
    findParameterDeepInChildren cs nm =
      (preorderList cs).find? (fun q => decide (q.name = nm)) := by
  cases cs with
  | nil => rw [findParameterDeepInChildren, preorderList]; rfl
  | cons c rest =>
    rw [findParameterDeepInChildren, preorderList, List.find?_append,
      findParameterDeep_eq_preorder_find c nm,
      findParameterDeepInChildren_eq_preorder_find rest nm]
    cases (preorder c).find? (fun q => decide (q.name = nm)) <;> simp [Option.or]

end

/-! ### The found-variables map of buildVariables -/

theorem variableDescriptors_symbols_nodup :
    (VARIABLE_DESCRIPTORS.map VariableDescriptor.symbol).Nodup := by decide

theorem recGet_foundVariables (descriptors : List VariableDescriptor)
    (p : ZmesParameter) (k : String)
    (hnd : (descriptors.map VariableDescriptor.symbol).Nodup) :
    recGet (foundVariables descriptors p) k =
      (descriptors.find? (fun d => decide (d.symbol = k))).bind
        (resolveVariable p) := by
  rw [foundVariables]
  exact recGet_setFold_nil_nodup VariableDescriptor.symbol (resolveVariable p)
    descriptors k hnd

theorem resolveVariable_eq_map (p : ZmesParameter) (d : VariableDescriptor) :
    resolveVariable p d =
      (floatArrayValue (findParameterDeep p d.parameterName)).map
        (fun data =>
          { symbol := d.symbol, label := d.label, units := d.units,
            data := data, isDependent := d.isDependent }) := by
  cases hfind : findParameterDeep p d.parameterName with
  | none => simp [resolveVariable, floatArrayValue, hfind]
  | some q =>
    cases hv : q.value with
    | none => simp [resolveVariable, floatArrayValue, hfind, hv]
    | some pv => cases pv <;> simp [resolveVariable, floatArrayValue, hfind, hv]

theorem recGet_foundVariables_default (p : ZmesParameter) :
    ∀ k d, VARIABLE_DESCRIPTORS.find? (fun d' => decide (d'.symbol = k)) = some d →
      recGet (foundVariables VARIABLE_DESCRIPTORS p) k =
        (floatArrayValue (findParameterDeep p d.parameterName)).map
          (fun data =>
            { symbol := d.symbol, label := d.label, units := d.units,
              data := data, isDependent := d.isDependent }) := by
  intro k d hfind
  rw [recGet_foundVariables VARIABLE_DESCRIPTORS p k variableDescriptors_symbols_nodup,
    hfind]
  rw [show (some d).bind (resolveVariable p) = resolveVariable p d from rfl,
    resolveVariable_eq_map]

/-! ### Option helpers -/

theorem opt_or_none {α : Type} (o : Option α) : o.or none = o := by
  cases o <;> rfl

theorem isSome_map {α β : Type} (g : α → β) (o : Option α) :
    (o.map g).isSome = o.isSome := by
  cases o <;> rfl

/-! ### Characterization of buildVariables -/

theorem buildVariables_characterization (p : ZmesParameter) :
    buildVariables p =
      (floatArrayValue (findParameterDeep p "Sizes")).bind (fun xs =>
        (floatArrayValue
            (findParameterDeep p "Particle Size Intensity Distribution")).map
          (fun ys =>
            { x := { symbol := "x", label := "Particle diameter", units := "nm",
                     data := xs, isDependent := false },
              y := { symbol := "y", label := "Intensity", units := "%",
                     data := ys, isDependent := true },
              v := (floatArrayValue
                  (findParameterDeep p "Particle Size Volume Distribution (%)")).map
                (fun data =>
                  { symbol := "v", label := "Volume", units := "%",
                    data := data, isDependent := true }),
              n := (floatArrayValue
                  (findParameterDeep p "Particle Size Number Distribution")).map
                (fun data =>
                  { symbol := "n", label := "Number", units := "%",
                    data := data, isDependent := true }),
              w := (floatArrayValue
                  (findParameterDeep p "Molecular Weights")).map
                (fun data =>
                  { symbol := "w", label := "Molecular weight", units := "Da",
                    data := data, isDependent := true }),
              d := (floatArrayValue
                  (findParameterDeep p "Diffusion Coefficients")).map
                (fun data =>
                  { symbol := "d", label := "Diffusion coefficient",
                    units := "µm²/s", data := data, isDependent := true }),
              r := (floatArrayValue
                  (findParameterDeep p "Relaxation Times")).map
                (fun data =>
                  { symbol := "r", label := "Relaxation time", units := "µs",
                    data := data, isDependent := true }),
              f := (floatArrayValue
                  (findParameterDeep p "Form Factor")).map
                (fun data =>
                  { symbol := "f", label := "Form factor", units := "",
                    data := data, isDependent := true }) })) := by
  have hx := recGet_foundVariables_default p "x"
    { parameterName := "Sizes", symbol := "x", label := "Particle diameter",
      units := "nm", isDependent := false } rfl
  have hy := recGet_foundVariables_default p "y"
    { parameterName := "Particle Size Intensity Distribution", symbol := "y",
      label := "Intensity", units := "%", isDependent := true } rfl
  have hv := recGet_foundVariables_default p "v"
    { parameterName := "Particle Size Volume Distribution (%)", symbol := "v",
      label := "Volume", units := "%", isDependent := true } rfl
  have hn := recGet_foundVariables_default p "n"
    { parameterName := "Particle Size Number Distribution", symbol := "n",
      label := "Number", units := "%", isDependent := true } rfl
  have hw := recGet_foundVariables_default p "w"
    { parameterName := "Molecular Weights", symbol := "w",
      label := "Molecular weight", units := "Da", isDependent := true } rfl
  have hd := recGet_foundVariables_default p "d"
    { parameterName := "Diffusion Coefficients", symbol := "d",
      label := "Diffusion coefficient", units := "µm²/s", isDependent := true } rfl
  have hr := recGet_foundVariables_default p "r"
    { parameterName := "Relaxation Times", symbol := "r",
      label := "Relaxation time", units := "µs", isDependent := true } rfl
  have hf := recGet_foundVariables_default p "f"
    { parameterName := "Form Factor", symbol := "f", label := "Form factor",
      units := "", isDependent := true } rfl
  rw [buildVariables, buildVariablesWith]
  rw [hx, hy, hv, hn, hw, hd, hr, hf]
  cases floatArrayValue (findParameterDeep p "Sizes") with
  | none => rfl
  | some xs =>
    cases floatArrayValue
        (findParameterDeep p "Particle Size Intensity Distribution") with
    | none => rfl
    | some ys => rfl

/-! ### Per-key behaviour of extractMeta -/

theorem recGet_setIfDefined_self (m : List (String × PValue)) (k : String)
    (ov : Option PValue) :
    recGet (setIfDefined m k ov) k = ov.or (recGet m k) := by
  cases ov with
  | none => rfl
  | some v => exact recGet_recSet_self m k v

theorem recGet_setIfDefined_ne (m : List (String × PValue)) (k : String)
    (ov : Option PValue) (k' : String) (h : k' ≠ k) :
    recGet (setIfDefined m k ov) k' = recGet m k' := by
  cases ov with
  | none => rfl
  | some v => exact recGet_recSet_ne m k k' v h

theorem recGet_applyDispersantInfo_ne (p : ZmesParameter)
    (m : List (String × PValue)) (k : String)
    (h1 : k ≠ "dispersantViscosity") (h2 : k ≠ "dispersantRI") :
    recGet (applyDispersantInfo p m) k = recGet m k := by
  rw [applyDispersantInfo, recGet_setIfDefined_ne _ _ _ _ h2,
    recGet_setIfDefined_ne _ _ _ _ h1]

theorem recGet_applyDispersantInfo_viscosity (p : ZmesParameter)
    (m : List (String × PValue)) :
    recGet (applyDispersantInfo p m) "dispersantViscosity" =
      ((findParameterDeep p "Dispersant Viscosity (cP)").bind
          ZmesParameter.value).or
        (recGet m "dispersantViscosity") := by
  rw [applyDispersantInfo, recGet_setIfDefined_ne _ _ _ _ (by decide),
    recGet_setIfDefined_self]

theorem recGet_applyDispersantInfo_RI (p : ZmesParameter)
    (m : List (String × PValue)) :
    recGet (applyDispersantInfo p m) "dispersantRI" =
      ((findParameterDeep p "Dispersant RI").bind ZmesParameter.value).or
        (recGet m "dispersantRI") := by
  rw [applyDispersantInfo, recGet_setIfDefined_self,
    recGet_setIfDefined_ne _ _ _ _ (by decide)]

theorem recGet_applyMaterialInfo_ne (p : ZmesParameter)
    (m : List (String × PValue)) (k : String)
    (h1 : k ≠ "materialRI") (h2 : k ≠ "materialAbsorption") :
    recGet (applyMaterialInfo p m) k = recGet m k := by
  cases hms : findParameterDeep p "Material Settings" with
  | none => simp only [applyMaterialInfo, hms]
  | some ms =>
    simp only [applyMaterialInfo, hms]
    rw [recGet_setIfDefined_ne _ _ _ _ h2, recGet_setIfDefined_ne _ _ _ _ h1]

theorem recGet_applyMaterialInfo_RI (p : ZmesParameter)
    (m : List (String × PValue)) :
    recGet (applyMaterialInfo p m) "materialRI" =
      ((findParameterDeep p "Material Settings").bind (fun ms =>
          (findParameterDeep ms "Material RI").bind ZmesParameter.value)).or
        (recGet m "materialRI") := by
  cases hms : findParameterDeep p "Material Settings" with
  | none => simp only [applyMaterialInfo, hms]; rfl
  | some ms =>
    simp only [applyMaterialInfo, hms]
    rw [recGet_setIfDefined_ne _ _ _ _ (by decide), recGet_setIfDefined_self]
    rfl

theorem recGet_applyMaterialInfo_absorption (p : ZmesParameter)
    (m : List (String × PValue)) :
    recGet (applyMaterialInfo p m) "materialAbsorption" =
      ((findParameterDeep p "Material Settings").bind (fun ms =>
          (findParameterDeep ms "Material Absorption").bind
            ZmesParameter.value)).or
        (recGet m "materialAbsorption") := by
  cases hms : findParameterDeep p "Material Settings" with
  | none => simp only [applyMaterialInfo, hms]; rfl
  | some ms =>
    simp only [applyMaterialInfo, hms]
    rw [recGet_setIfDefined_self, recGet_setIfDefined_ne _ _ _ _ (by decide)]
    rfl

theorem extractMeta_topLevel_key (p : ZmesParameter) (f : MetaField)
    (hf : f ∈ topLevelFields) :
    recGet (extractMeta p) f.metaKey =
      (findParameter p.children f.parameterName).bind ZmesParameter.value := by
  have hne := (by decide : ∀ g ∈ topLevelFields,
    g.metaKey ≠ "dispersantViscosity" ∧ g.metaKey ≠ "dispersantRI" ∧
    g.metaKey ≠ "materialRI" ∧ g.metaKey ≠ "materialAbsorption") f hf
  have hdeep := (by decide : ∀ g ∈ topLevelFields,
    ∀ g' ∈ deepFields, g'.metaKey ≠ g.metaKey) f hf
  rw [extractMeta,
    recGet_applyDispersantInfo_ne _ _ _ hne.1 hne.2.1,
    recGet_applyMaterialInfo_ne _ _ _ hne.2.2.1 hne.2.2.2,
    recGet_setFold_notMem MetaField.metaKey _ deepFields _ _ hdeep,
    recGet_setFold_nil_nodup MetaField.metaKey _ topLevelFields _ (by decide),
    find?_key_of_mem MetaField.metaKey topLevelFields f (by decide) hf]
  rfl

theorem extractMeta_deep_key (p : ZmesParameter) (f : MetaField)
    (hf : f ∈ deepFields) :
    recGet (extractMeta p) f.metaKey =
      (findParameterDeep p f.parameterName).bind ZmesParameter.value := by
  have hne := (by decide : ∀ g ∈ deepFields,
    g.metaKey ≠ "dispersantViscosity" ∧ g.metaKey ≠ "dispersantRI" ∧
    g.metaKey ≠ "materialRI" ∧ g.metaKey ≠ "materialAbsorption") f hf
  have htop := (by decide : ∀ g ∈ deepFields,
    ∀ g' ∈ topLevelFields, g'.metaKey ≠ g.metaKey) f hf
  rw [extractMeta,
    recGet_applyDispersantInfo_ne _ _ _ hne.1 hne.2.1,
    recGet_applyMaterialInfo_ne _ _ _ hne.2.2.1 hne.2.2.2,
    recGet_setFold_nodup MetaField.metaKey _ deepFields _ _ (by decide),
    find?_key_of_mem MetaField.metaKey deepFields f (by decide) hf,
    recGet_setFold_notMem MetaField.metaKey _ topLevelFields _ _ htop,
    recGet_nil, opt_or_none]
  rfl

theorem extractMeta_materialRI (p : ZmesParameter) :
    recGet (extractMeta p) "materialRI" =
      (findParameterDeep p "Material Settings").bind (fun ms =>
        (findParameterDeep ms "Material RI").bind ZmesParameter.value) := by
  rw [extractMeta,
    recGet_applyDispersantInfo_ne _ _ _ (by decide) (by decide),
    recGet_applyMaterialInfo_RI,
    recGet_setFold_notMem MetaField.metaKey _ deepFields _ _ (by decide),
    recGet_setFold_notMem MetaField.metaKey _ topLevelFields _ _ (by decide),
    recGet_nil, opt_or_none]

theorem extractMeta_materialAbsorption (p : ZmesParameter) :
    recGet (extractMeta p) "materialAbsorption" =
      (findParameterDeep p "Material Settings").bind (fun ms =>
        (findParameterDeep ms "Material Absorption").bind
          ZmesParameter.value) := by
  rw [extractMeta,
    recGet_applyDispersantInfo_ne _ _ _ (by decide) (by decide),
    recGet_applyMaterialInfo_absorption,
    recGet_setFold_notMem MetaField.metaKey _ deepFields _ _ (by decide),
    recGet_setFold_notMem MetaField.metaKey _ topLevelFields _ _ (by decide),
    recGet_nil, opt_or_none]

theorem extractMeta_dispersantViscosity (p : ZmesParameter) :
    recGet (extractMeta p) "dispersantViscosity" =
      (findParameterDeep p "Dispersant Viscosity (cP)").bind
        ZmesParameter.value := by
  rw [extractMeta, recGet_applyDispersantInfo_viscosity,
    recGet_applyMaterialInfo_ne _ _ _ (by decide) (by decide),
    recGet_setFold_notMem MetaField.metaKey _ deepFields _ _ (by decide),
    recGet_setFold_notMem MetaField.metaKey _ topLevelFields _ _ (by decide),
    recGet_nil, opt_or_none]

theorem extractMeta_dispersantRI (p : ZmesParameter) :
    recGet (extractMeta p) "dispersantRI" =
      (findParameterDeep p "Dispersant RI").bind ZmesParameter.value := by
  rw [extractMeta, recGet_applyDispersantInfo_RI,
    recGet_applyMaterialInfo_ne _ _ _ (by decide) (by decide),
    recGet_setFold_notMem MetaField.metaKey _ deepFields _ _ (by decide),
    recGet_setFold_notMem MetaField.metaKey _ topLevelFields _ _ (by decide),
    recGet_nil, opt_or_none]

/-! ### The keys extractMeta can emit -/

theorem all_keys_recSet {α : Type} (pr : String → Bool) (m : List (String × α))
    (k : String) (v : α) (hm : m.all (fun q => pr q.1) = true)
    (hk : pr k = true) :
    (recSet m k v).all (fun q => pr q.1) = true := by
  induction m with
  | nil => simp [recSet, hk]
  | cons q rest ih =>
    simp only [List.all_cons, Bool.and_eq_true] at hm
    by_cases hq : q.1 = k
    · simp only [recSet, if_pos hq, List.all_cons, Bool.and_eq_true]
      exact ⟨hk, hm.2⟩
    · simp only [recSet, if_neg hq, List.all_cons, Bool.and_eq_true]
      exact ⟨hm.1, ih hm.2⟩

theorem all_keys_setIfDefined (pr : String → Bool) (m : List (String × PValue))
    (k : String) (ov : Option PValue) (hm : m.all (fun q => pr q.1) = true)
    (hk : pr k = true) :
    (setIfDefined m k ov).all (fun q => pr q.1) = true := by
  cases ov with
  | none => exact hm
  | some v => exact all_keys_recSet pr m k v hm hk

theorem all_keys_setStep {β α : Type} (key : β → String) (res : β → Option α)
    (pr : String → Bool) (m : List (String × α)) (b : β)
    (hm : m.all (fun q => pr q.1) = true) (hk : pr (key b) = true) :
    (setStep key res m b).all (fun q => pr q.1) = true := by
  unfold setStep
  cases res b with
  | none => exact hm
  | some v => exact all_keys_recSet pr m (key b) v hm hk

theorem all_keys_setFold {β α : Type} (key : β → String) (res : β → Option α)
    (pr : String → Bool) (l : List β) (m : List (String × α))
    (hm : m.all (fun q => pr q.1) = true)
    (hl : ∀ b ∈ l, pr (key b) = true) :
    (setFold key res l m).all (fun q => pr q.1) = true := by
  induction l generalizing m with
  | nil => exact hm
  | cons b rest ih =>
    rw [setFold, List.foldl_cons, ← setFold]
    exact ih (setStep key res m b)
      (all_keys_setStep key res pr m b hm (hl b (List.mem_cons_self b rest)))
      (fun b' hb' => hl b' (List.mem_cons_of_mem b hb'))

theorem all_keys_applyMaterialInfo (p : ZmesParameter) (pr : String → Bool)
    (m : List (String × PValue)) (hm : m.all (fun q => pr q.1) = true)
    (h1 : pr "materialRI" = true) (h2 : pr "materialAbsorption" = true) :
    (applyMaterialInfo p m).all (fun q => pr q.1) = true := by
  cases hms : findParameterDeep p "Material Settings" with
  | none => simp only [applyMaterialInfo, hms]; exact hm
  | some ms =>
    simp only [applyMaterialInfo, hms]
    exact all_keys_setIfDefined pr _ _ _
      (all_keys_setIfDefined pr m _ _ hm h1) h2

theorem all_keys_applyDispersantInfo (p : ZmesParameter) (pr : String → Bool)
    (m : List (String × PValue)) (hm : m.all (fun q => pr q.1) = true)
    (h1 : pr "dispersantViscosity" = true) (h2 : pr "dispersantRI" = true) :
    (applyDispersantInfo p m).all (fun q => pr q.1) = true := by
  rw [applyDispersantInfo]
  exact all_keys_setIfDefined pr _ _ _
    (all_keys_setIfDefined pr m _ _ hm h1) h2

theorem extractMeta_keys (p : ZmesParameter) :
    (extractMeta p).all (fun q => decide (q.1 ∈ knownMetaKeys)) = true := by
  rw [extractMeta]
  exact all_keys_applyDispersantInfo p (fun s => decide (s ∈ knownMetaKeys)) _
    (all_keys_applyMaterialInfo p (fun s => decide (s ∈ knownMetaKeys)) _
      (all_keys_setFold MetaField.metaKey _ (fun s => decide (s ∈ knownMetaKeys))
        deepFields _
        (all_keys_setFold MetaField.metaKey _ (fun s => decide (s ∈ knownMetaKeys))
          topLevelFields _ rfl (by decide))
        (by decide))
      (by decide) (by decide))
    (by decide) (by decide)

/-! ### Remaining helper lemmas -/

theorem floatArrayValue_eq_bind (o : Option ZmesParameter) :
    floatArrayValue o = o.bind (fun q => floatArrayValue (some q)) := by
  cases o with
  | none => rfl
  | some q => rfl

theorem buildVariables_eq_none_iff (p : ZmesParameter) :
    buildVariables p = none ↔
      floatArrayValue (findParameterDeep p "Sizes") = none ∨
      floatArrayValue
        (findParameterDeep p "Particle Size Intensity Distribution") = none := by
  cases hxa : floatArrayValue (findParameterDeep p "Sizes") with
  | none =>
    have hchar := buildVariables_characterization p
    rw [hxa] at hchar
    have hnone : buildVariables p = none := hchar.trans rfl
    rw [hnone]
    simp
  | some xs =>
    cases hya : floatArrayValue
        (findParameterDeep p "Particle Size Intensity Distribution") with
    | none =>
      have hchar := buildVariables_characterization p
      rw [hxa, hya] at hchar
      have hnone : buildVariables p = none := hchar.trans rfl
      rw [hnone]
      simp
    | some ys =>
      have hchar := buildVariables_characterization p
      rw [hxa, hya] at hchar
      rw [hchar]
      simp

theorem foldl_pushRecord (records : List ZmesRecord) (acc : List SpectrumEntry) :
    records.foldl pushRecord acc =
      acc ++ records.filterMap (fun record =>
        (buildVariables record.parameters).map (fun vars =>
          { «variables» := vars, id := record.guid,
            title := extractTitle record.parameters,
            dataType := "Size measurement",
            meta := extractMeta record.parameters,
            settings := extractSettings record.parameters })) := by
  induction records generalizing acc with
  | nil => simp
  | cons r rest ih =>
    rw [List.foldl_cons]
    cases hv : buildVariables r.parameters with
    | none => simp [pushRecord, hv, ih, List.filterMap_cons]
    | some vars =>
      simp [pushRecord, hv, ih, List.filterMap_cons, List.append_assoc]

/-! ### Claim theorems -/

/-- Claim C1: for every parameter tree, `buildVariables` returns `none`
exactly when the first document-order "Sizes" node is absent or not a
numeric floating-point array, or the first document-order
"Particle Size Intensity Distribution" node is absent or not a numeric
floating-point array; otherwise the returned variable set holds both `x`
and `y`, and each of the six optional symbols is present iff its
descriptor's parameter name resolved to a numeric-array value. -/
theorem buildVariables_requires_x_and_y (p : ZmesParameter) :
    (buildVariables p = none ↔
      floatArrayValue (findParameterDeep p "Sizes") = none ∨
      floatArrayValue
        (findParameterDeep p "Particle Size Intensity Distribution") = none) ∧
    (∀ vars, buildVariables p = some vars →
      (vars.v.isSome = true ↔
        (floatArrayValue (findParameterDeep p
          "Particle Size Volume Distribution (%)")).isSome = true) ∧
      (vars.n.isSome = true ↔
        (floatArrayValue (findParameterDeep p
          "Particle Size Number Distribution")).isSome = true) ∧
      (vars.w.isSome = true ↔
        (floatArrayValue (findParameterDeep p
          "Molecular Weights")).isSome = true) ∧
      (vars.d.isSome = true ↔
        (floatArrayValue (findParameterDeep p
          "Diffusion Coefficients")).isSome = true) ∧
      (vars.r.isSome = true ↔
        (floatArrayValue (findParameterDeep p
          "Relaxation Times")).isSome = true) ∧
      (vars.f.isSome = true ↔
        (floatArrayValue (findParameterDeep p
          "Form Factor")).isSome = true)) := by
  refine ⟨buildVariables_eq_none_iff p, ?_⟩
  intro vars hv
  cases hxa : floatArrayValue (findParameterDeep p "Sizes") with
  | none =>
    have hchar := buildVariables_characterization p
    rw [hxa] at hchar
    have hnone : buildVariables p = none := hchar.trans rfl
    rw [hnone] at hv
    exact absurd hv (by simp)
  | some xs =>
    cases hya : floatArrayValue
        (findParameterDeep p "Particle Size Intensity Distribution") with
    | none =>
      have hchar := buildVariables_characterization p
      rw [hxa, hya] at hchar
      have hnone : buildVariables p = none := hchar.trans rfl
      rw [hnone] at hv
      exact absurd hv (by simp)
    | some ys =>
      have hchar := buildVariables_characterization p
      rw [hxa, hya] at hchar
      rw [hchar] at hv
      have hv2 := Option.some.inj hv
      subst hv2
      simp [isSome_map]

/-- Witness for C1: on the concrete sample tree the variable set is
produced and its optional `v` variable is present exactly because the
volume distribution node holds a numeric array. -/
theorem buildVariables_requires_x_and_y_witness :
    buildVariables sampleTree = some sampleVars ∧
    (sampleVars.v.isSome = true ↔
      (floatArrayValue (findParameterDeep sampleTree
        "Particle Size Volume Distribution (%)")).isSome = true) :=
  ⟨rfl, ((buildVariables_requires_x_and_y sampleTree).2 sampleVars rfl).1⟩

/-- Claim C2: the orchestrator `fromZmes` processes records in file order;
a record whose `buildVariables` result is `none` produces no output entry,
and every surviving record produces exactly one entry whose id is that
record's GUID verbatim — the whole output is the order-preserving
`filterMap` of the per-record entry construction. -/
theorem fromZmes_skips_and_keeps_guid (zmesFile : ZmesFile) :
    fromZmes zmesFile =
      zmesFile.records.filterMap (fun record =>
        (buildVariables record.parameters).map (fun vars =>
          { «variables» := vars, id := record.guid,
            title := extractTitle record.parameters,
            dataType := "Size measurement",
            meta := extractMeta record.parameters,
            settings := extractSettings record.parameters })) := by
  rw [fromZmes, foldl_pushRecord, List.nil_append]

/-- Claim C3: `findParameterDeep` performs a depth-first pre-order search —
root before children, children in stored order — and returns exactly the
first node in that traversal order whose name matches, or `none` when no
node matches. -/
theorem findParameterDeep_first_in_document_order (p : ZmesParameter)
    (nm : String) :
    findParameterDeep p nm =
      (preorder p).find? (fun q => decide (q.name = nm)) :=
  findParameterDeep_eq_preorder_find p nm

/-- Claim C4: the metadata keys materialRI and materialAbsorption are
populated only from deep searches rooted at the first document-order
"Material Settings" subtree: when that subtree is absent both keys are
absent, and a same-named node outside it never contributes. -/
theorem extractMeta_material_scoped (p : ZmesParameter) :
    recGet (extractMeta p) "materialRI" =
      (findParameterDeep p "Material Settings").bind (fun ms =>
        (findParameterDeep ms "Material RI").bind ZmesParameter.value) ∧
    recGet (extractMeta p) "materialAbsorption" =
      (findParameterDeep p "Material Settings").bind (fun ms =>
        (findParameterDeep ms "Material Absorption").bind
          ZmesParameter.value) :=
  ⟨extractMeta_materialRI p, extractMeta_materialAbsorption p⟩

/-- Claim C5: `extractMeta` always returns a flat key/value record (it is a
total function); every key it can emit is one of the sixteen known
metadata keys, and each key is present exactly when its source lookup
found a node with a defined value, that value being passed through
unmodified — an absent source field simply omits the key. -/
theorem extractMeta_presence (p : ZmesParameter) :
    recGet (extractMeta p) "operatorName" =
      (findParameter p.children "Operator Name").bind ZmesParameter.value ∧
    recGet (extractMeta p) "measurementStartDateTime" =
      (findParameter p.children "Measurement Start Date And Time").bind
        ZmesParameter.value ∧
    recGet (extractMeta p) "measurementCompletedDateTime" =
      (findParameter p.children "Measurement Completed Date And Time").bind
        ZmesParameter.value ∧
    recGet (extractMeta p) "repeat" =
      (findParameter p.children "Repeat").bind ZmesParameter.value ∧
    recGet (extractMeta p) "numberOfRepeats" =
      (findParameter p.children "Number Of Repeats").bind ZmesParameter.value ∧
    recGet (extractMeta p) "pauseBetweenRepeats" =
      (findParameter p.children "Pause Between Repeats (s)").bind
        ZmesParameter.value ∧
    recGet (extractMeta p) "qualityIndicator" =
      (findParameter p.children "Quality Indicator").bind ZmesParameter.value ∧
    recGet (extractMeta p) "resultState" =
      (findParameter p.children "Result State").bind ZmesParameter.value ∧
    recGet (extractMeta p) "measurementType" =
      (findParameter p.children "Measurement Type").bind ZmesParameter.value ∧
    recGet (extractMeta p) "zAverage" =
      (findParameterDeep p "Z-Average (nm)").bind ZmesParameter.value ∧
    recGet (extractMeta p) "polydispersityIndex" =
      (findParameterDeep p "Polydispersity Index (PI)").bind
        ZmesParameter.value ∧
    recGet (extractMeta p) "derivedMeanCountRate" =
      (findParameterDeep p "Derived Mean Count Rate (kcps)").bind
        ZmesParameter.value ∧
    recGet (extractMeta p) "materialRI" =
      (findParameterDeep p "Material Settings").bind (fun ms =>
        (findParameterDeep ms "Material RI").bind ZmesParameter.value) ∧
    recGet (extractMeta p) "materialAbsorption" =
      (findParameterDeep p "Material Settings").bind (fun ms =>
        (findParameterDeep ms "Material Absorption").bind
          ZmesParameter.value) ∧
    recGet (extractMeta p) "dispersantViscosity" =
      (findParameterDeep p "Dispersant Viscosity (cP)").bind
        ZmesParameter.value ∧
    recGet (extractMeta p) "dispersantRI" =
      (findParameterDeep p "Dispersant RI").bind ZmesParameter.value ∧
    (extractMeta p).all (fun q => decide (q.1 ∈ knownMetaKeys)) = true :=
  ⟨extractMeta_topLevel_key p
      { parameterName := "Operator Name", metaKey := "operatorName" }
      (by decide),
   extractMeta_topLevel_key p
      { parameterName := "Measurement Start Date And Time",
        metaKey := "measurementStartDateTime" } (by decide),
   extractMeta_topLevel_key p
      { parameterName := "Measurement Completed Date And Time",
        metaKey := "measurementCompletedDateTime" } (by decide),
   extractMeta_topLevel_key p
      { parameterName := "Repeat", metaKey := "repeat" } (by decide),
   extractMeta_topLevel_key p
      { parameterName := "Number Of Repeats", metaKey := "numberOfRepeats" }
      (by decide),
   extractMeta_topLevel_key p
      { parameterName := "Pause Between Repeats (s)",
        metaKey := "pauseBetweenRepeats" } (by decide),
   extractMeta_topLevel_key p
      { parameterName := "Quality Indicator", metaKey := "qualityIndicator" }
      (by decide),
   extractMeta_topLevel_key p
      { parameterName := "Result State", metaKey := "resultState" }
      (by decide),
   extractMeta_topLevel_key p
      { parameterName := "Measurement Type", metaKey := "measurementType" }
      (by decide),
   extractMeta_deep_key p
      { parameterName := "Z-Average (nm)", metaKey := "zAverage" } (by decide),
   extractMeta_deep_key p
      { parameterName := "Polydispersity Index (PI)",
        metaKey := "polydispersityIndex" } (by decide),
   extractMeta_deep_key p
      { parameterName := "Derived Mean Count Rate (kcps)",
        metaKey := "derivedMeanCountRate" } (by decide),
   extractMeta_materialRI p, extractMeta_materialAbsorption p,
   extractMeta_dispersantViscosity p, extractMeta_dispersantRI p,
   extractMeta_keys p⟩

/-- Claim C6: title extraction returns the empty string when no direct child
of the record root is named "Sample Settings"; otherwise it deep-searches
the first such subtree for "Sample Name" and returns that node's value if
the value is a string, else the empty string. -/
theorem extractTitle_spec (p : ZmesParameter) :
    ((∀ c ∈ p.children, c.name ≠ "Sample Settings") → extractTitle p = "") ∧
    (∀ ss, findParameter p.children "Sample Settings" = some ss →
      extractTitle p =
        match findParameterDeep ss "Sample Name" with
        | some sampleName =>
          match sampleName.value with
          | some (.str s) => s
          | _ => ""
        | none => "") := by
  constructor
  · intro h
    have hnone : findParameter p.children "Sample Settings" = none := by
      rw [findParameter, List.find?_eq_none]
      intro c hc
      simp [h c hc]
    rw [extractTitle, hnone]
  · intro ss hss
    rw [extractTitle, hss]

/-- Witness for C6: the record tree without a "Sample Settings" child gives
the empty title, and the sample tree's nested sample name becomes its
title. -/
theorem extractTitle_spec_witness :
    extractTitle missingYTree = "" ∧ extractTitle sampleTree = "TEST XX230.A" :=
  ⟨(extractTitle_spec missingYTree).1 (by decide),
   ((extractTitle_spec sampleTree).2 sampleSettingsNode rfl).trans rfl⟩

/-- Claim C7: `extractSettings` never fails and always emits the hardcoded
manufacturer, model and software-name constants, even when serial number
and software version are absent; the serial number is included exactly
when the deep lookup of "Instrument Serial Number" yields a string value,
and the software version exactly when the direct-child lookup of
"Software Version" yields a string value. -/
theorem extractSettings_instrument_constants (p : ZmesParameter) :
    (extractSettings p).instrument.manufacturer = "Malvern Panalytical" ∧
    (extractSettings p).instrument.model = "Zetasizer" ∧
    (extractSettings p).instrument.software.name = "ZS XPLORER" ∧
    (extractSettings p).instrument.serialNumber =
      stringValue (findParameterDeep p "Instrument Serial Number") ∧
    (extractSettings p).instrument.software.version =
      stringValue (findParameter p.children "Software Version") :=
  ⟨rfl, rfl, rfl, rfl, rfl⟩

/-- Claim C8: for every parameter tree and every entry of the numeric
settings table, the settings key is bound exactly to the numeric-scalar
value of the first document-order node with that parameter name; a found
node whose value is not numeric (for example a string) is treated like
"not found" — discarded without coercion. -/
theorem extractSettings_numeric_spec (p : ZmesParameter)
    (field : SettingsField) (hf : field ∈ instrumentSettingsFields) :
    recGet (extractSettings p).numeric field.settingsKey =
      numericValue (findParameterDeep p field.parameterName) := by
  have hnum : (extractSettings p).numeric =
      setFold SettingsField.settingsKey
        (fun f => numericValue (findParameterDeep p f.parameterName))
        instrumentSettingsFields [] := rfl
  rw [hnum,
    recGet_setFold_nil_nodup SettingsField.settingsKey _
      instrumentSettingsFields _ (by decide),
    find?_key_of_mem SettingsField.settingsKey instrumentSettingsFields
      field (by decide) hf]
  rfl

/-- Witness for C8: the detector-angle entry of the table on the sample
tree, whose "Detector Angle (°)" node holds the number 173. -/
theorem extractSettings_numeric_spec_witness :
    (({ parameterName := "Detector Angle (°)",
        settingsKey := "detectorAngle" } : SettingsField) ∈
      instrumentSettingsFields) ∧
    recGet (extractSettings sampleTree).numeric "detectorAngle" = some 173 :=
  ⟨by decide,
   (extractSettings_numeric_spec sampleTree
     { parameterName := "Detector Angle (°)", settingsKey := "detectorAngle" }
     (by decide)).trans rfl⟩

/-- Claim C9: evaluating the variable descriptors in any permuted order
yields the same variable set as the fixed table order, because each
descriptor has a unique symbol key. -/
theorem buildVariables_descriptor_order_invariant
    (descriptors : List VariableDescriptor)
    (hp : descriptors.Perm VARIABLE_DESCRIPTORS) (p : ZmesParameter) :
    buildVariablesWith descriptors p =
      buildVariablesWith VARIABLE_DESCRIPTORS p := by
  have hnd : (VARIABLE_DESCRIPTORS.map VariableDescriptor.symbol).Nodup :=
    variableDescriptors_symbols_nodup
  have hndl : (descriptors.map VariableDescriptor.symbol).Nodup :=
    ((hp.map VariableDescriptor.symbol).nodup_iff).mpr hnd
  have hkey : ∀ k, recGet (foundVariables descriptors p) k =
      recGet (foundVariables VARIABLE_DESCRIPTORS p) k := by
    intro k
    rw [recGet_foundVariables descriptors p k hndl,
      recGet_foundVariables VARIABLE_DESCRIPTORS p k hnd,
      find?_eq_of_perm VariableDescriptor.symbol descriptors
        VARIABLE_DESCRIPTORS hp hnd k]
  simp only [buildVariablesWith]
  simp only [hkey]

/-- Witness for C9: the reversed descriptor table builds the same variable
set as the source-order table on the sample tree. -/
theorem buildVariables_descriptor_order_invariant_witness :
    VARIABLE_DESCRIPTORS.reverse.Perm VARIABLE_DESCRIPTORS ∧
    buildVariablesWith VARIABLE_DESCRIPTORS.reverse sampleTree =
      buildVariablesWith VARIABLE_DESCRIPTORS sampleTree :=
  ⟨List.reverse_perm VARIABLE_DESCRIPTORS,
   buildVariables_descriptor_order_invariant VARIABLE_DESCRIPTORS.reverse
     (List.reverse_perm VARIABLE_DESCRIPTORS) sampleTree⟩

/-- Claim C10: `buildVariables` never falls back to a later same-named node:
the numeric-array test is applied only to the first document-order node
with each descriptor's parameter name, so the record whose first "Sizes"
node holds a string is skipped entirely even though a later "Sizes" node
holds a valid numeric array. -/
theorem buildVariables_checks_only_first_match :
    (∀ (p : ZmesParameter) (nm : String),
      floatArrayValue (findParameterDeep p nm) =
        ((preorder p).find? (fun q => decide (q.name = nm))).bind
          (fun q => floatArrayValue (some q))) ∧
    (∀ p : ZmesParameter,
      buildVariables p = none ↔
        ((preorder p).find? (fun q => decide (q.name = "Sizes"))).bind
          (fun q => floatArrayValue (some q)) = none ∨
        ((preorder p).find? (fun q =>
            decide (q.name = "Particle Size Intensity Distribution"))).bind
          (fun q => floatArrayValue (some q)) = none) ∧
    buildVariables shadowedSizesTree = none ∧
    (∃ q ∈ preorder shadowedSizesTree,
      q.name = "Sizes" ∧ floatArrayValue (some q) ≠ none) := by
  have hfirst : ∀ (p : ZmesParameter) (nm : String),
      floatArrayValue (findParameterDeep p nm) =
        ((preorder p).find? (fun q => decide (q.name = nm))).bind
          (fun q => floatArrayValue (some q)) := by
    intro p nm
    rw [← findParameterDeep_eq_preorder_find, floatArrayValue_eq_bind]
  refine ⟨hfirst, ?_, rfl, by decide⟩
  intro p
  rw [← hfirst p "Sizes", ← hfirst p "Particle Size Intensity Distribution"]
  exact buildVariables_eq_none_iff p
